import Mathlib

/-!
Verification of the DynaPM gateway core against its specification.

This file gives a shallow embedding, in Lean 4, of the parts of the DynaPM
source that the specification's claims are about:

* the per-service runtime state and its state machine
  (`src/src/core/gateway.ts`),
* the idle reaper (`Gateway.checkIdleService`),
* the on-demand start path (`Gateway.startServiceAndProxy`),
* the request dispatcher (`Gateway.handleRequest`),
* the shutdown cleanup (`Gateway.cleanup`),
* the single-flight start of `ServiceManager.start`
  (`src/src/core/service-manager.ts`, lines 116-171 copy, which is the one
  the gateway's admin handlers rely on: its `stop` throws on failure and
  writes `offline` itself),
* the active-connection accounting of `Gateway.forwardProxyRequest` and the
  WebSocket handlers,
* header sanitisation and upstream header construction,
* the WebSocket bridge message path, and
* the admin API service lookup (`AdminApiHandler`).

Time stamps are modelled as `Nat` milliseconds; the executor and the network
are modelled by explicit boolean oracles (exit codes, port reachability).
-/

/-- Service status, `ServiceState.status` in `src/src/config/types.ts`. -/
inductive Status where
  | offline
  | starting
  | online
  | stopping
deriving DecidableEq, Repr

/-- Mutable runtime state of one service, `ServiceState` in
`src/src/config/types.ts`.  `activeConnections` is an `Int` because the
source decrements a plain JS number; non-negativity is proved, not assumed. -/
structure ServiceState where
  status : Status
  lastAccessTime : Nat
  activeConnections : Int
  startTime : Option Nat
  startCount : Nat
  totalUptime : Nat
deriving DecidableEq, Repr

/-- The immutable configuration fields of one service that the claims need,
from `ServiceConfig` in `src/src/config/types.ts`. -/
structure ServiceConfig where
  name : String
  idleTimeout : Nat
  startTimeout : Nat
  proxyOnly : Bool
deriving DecidableEq, Repr

/-- Initial runtime state installed by `Gateway.initServices`
(`gateway.ts` lines 404-412): `proxyOnly` services start `online`, all
others start `offline`; counters are zeroed and `lastAccessTime` is the
current time. -/
def initServiceState (svc : ServiceConfig) (now : Nat) : ServiceState :=
  { status := if svc.proxyOnly then Status.online else Status.offline
    lastAccessTime := now
    activeConnections := 0
    startTime := none
    startCount := 0
    totalUptime := 0 }

/-- One idle-reaper visit to one service, `Gateway.checkIdleService`
(`gateway.ts` lines 488-515).  Returns the updated state together with a
flag telling whether `serviceManager.stop` was invoked.  `proxyOnly`
services are skipped; otherwise the service is reaped exactly when it is
`online`, has no active connections and has been idle longer than its
`idleTimeout`.  On reap the status becomes `stopping`, and if `startTime`
is set, `now - startTime` is added to `totalUptime` and `startTime` is
cleared. -/
def checkIdleService (svc : ServiceConfig) (st : ServiceState) (now : Nat) :
    ServiceState × Bool :=
  if svc.proxyOnly then (st, false)
  else if st.status = Status.online ∧ st.activeConnections = 0 ∧
      now - st.lastAccessTime > svc.idleTimeout then
    let st1 := { st with status := Status.stopping }
    let st2 :=
      match st.startTime with
      | some t =>
          { st1 with totalUptime := st1.totalUptime + (now - t), startTime := none }
      | none => st1
    (st2, true)
  else (st, false)

/-- Completion of the idle reaper's stop: the `.finally` handler in
`checkIdleService` (`gateway.ts` lines 508-513) writes `offline`
unconditionally, and `ServiceManager.stop` (`service-manager.ts` lines
178-195) also writes `offline` in both its success and failure branches, so
the service reaches `offline` whether or not the stop command succeeded.
`stopCmdOk` records the stop command's success and does not influence the
resulting status. -/
def idleStopComplete (st : ServiceState) (stopCmdOk : Bool) : ServiceState :=
  { st with status := Status.offline }

/-- The action `Gateway.handleRequest` (`gateway.ts` lines 557-606) selects
from the service status: `needsStart` is true exactly for `offline` and
`stopping`; a `stopping` service goes to `handleServiceWithWait`, an
`offline` one to `handleServiceStart`, and anything else - `starting`
included - to `handleDirectProxy`, which forwards to the upstream at once. -/
inductive HandlerAction where
  | startAndProxy
  | waitStopping
  | directProxy
deriving DecidableEq, Repr

/-- Dispatch logic of `Gateway.handleRequest` (`gateway.ts` lines 593-605). -/
def handleRequest (status : Status) : HandlerAction :=
  if status = Status.offline ∨ status = Status.stopping then
    if status = Status.stopping then HandlerAction.waitStopping
    else HandlerAction.startAndProxy
  else HandlerAction.directProxy

/-- Client-visible result of the on-demand start path. -/
inductive StartProxyResult where
  | forwarded
  | error503
deriving DecidableEq, Repr

/-- State effects of `Gateway.startServiceAndProxy` (`gateway.ts` lines
611-672).  The status is set to `starting`; then `serviceManager.start`
runs (outcome `startCmdOk`); on success the readiness loop polls the target
port (outcome `isReady`).  If the port never becomes ready the status is
set to `offline` and a 503 is sent.  If the start command itself fails, the
catch block sends a 503 but performs no status write, so the state keeps
status `starting`.  On full success the status becomes `online`,
`startTime := now` is recorded and `startCount` is incremented before the
request is forwarded. -/
def startServiceAndProxy (st : ServiceState) (startCmdOk : Bool)
    (isReady : Bool) (now : Nat) : ServiceState × StartProxyResult :=
  let st1 := { st with status := Status.starting }
  if startCmdOk = false then
    (st1, StartProxyResult.error503)
  else if isReady = false then
    ({ st1 with status := Status.offline }, StartProxyResult.error503)
  else
    ({ st1 with
        status := Status.online
        startTime := some now
        startCount := st1.startCount + 1 }, StartProxyResult.forwarded)

/-- One service's treatment by `Gateway.cleanup` (`gateway.ts` lines
1696-1726): every collected service whose status is `online` or `starting`
has `serviceManager.stop` invoked on it - the `proxyOnly` flag is not
consulted.  `ServiceManager.stop` (`service-manager.ts` lines 178-195)
writes `offline` in both branches; the rejection is swallowed by the
`.catch` in `cleanup`.  Returns the updated state and whether the stop
command was invoked. -/
def cleanupService (st : ServiceState) : ServiceState × Bool :=
  if st.status = Status.online ∨ st.status = Status.starting then
    ({ st with status := Status.offline }, true)
  else (st, false)

/-! ### Single-flight start, `ServiceManager.start` (`service-manager.ts` lines 116-171)

The manager keeps a per-name map `startingLocks` of in-flight start
attempts.  A caller whose entry finds no lock creates an attempt: the
attempt first runs the check command (`isRunning`); if it reports the
service already running the attempt finishes without running the start
command, otherwise it executes `commands.start` and succeeds or fails with
the command's exit code.  A caller whose entry finds a lock awaits it:

* if the awaited attempt succeeded, the caller runs `isRunning` once more;
  `true` makes it return success, `false` makes it delete the lock and call
  `start` again recursively (comment in source: delete the lock to allow a
  retry, then restart recursively);
* if the awaited attempt failed, the caller deletes the lock and falls
  through to the attempt-creation code itself.

We model one caller's run of `start` as a function of the observations it
makes, one `CallerObs` per entry into `start` (the recursion consumes the
next observation).  The second component of the result counts how many
times this caller's own attempts executed the start command. -/

/-- Observations one entry into `ServiceManager.start` can make.
`entryLock = none`: no lock was installed at entry.  `entryLock = some b`:
a lock was found and the awaited attempt settled with success `b`.
`checkAfterLock` is the `isRunning` result the caller obtains after
awaiting a successful foreign attempt; `ownCheck` and `ownStart` are the
check-command and start-command outcomes inside the caller's own attempt,
when it creates one. -/
structure CallerObs where
  entryLock : Option Bool
  checkAfterLock : Bool
  ownCheck : Bool
  ownStart : Bool
deriving DecidableEq, Repr

/-- Result of one caller's `ServiceManager.start` call. -/
inductive StartResult where
  | success
  | failure
  | fuelOut
deriving DecidableEq, Repr

/-- The async closure installed as the lock (`service-manager.ts` lines
138-167): run the check command; if the service already runs, return
without starting; otherwise execute `commands.start` and fail on a
non-zero exit.  Second component: how many times the start command was
executed (0 or 1). -/
def runOwnAttempt (obs : CallerObs) : StartResult × Nat :=
  if obs.ownCheck then (StartResult.success, 0)
  else if obs.ownStart then (StartResult.success, 1)
  else (StartResult.failure, 1)

/-- One caller's `ServiceManager.start`, fuelled to bound the source's
recursive retry.  Each list element is the observation for one entry into
`start`. -/
def managerStart : Nat → List CallerObs → StartResult × Nat
  | 0, _ => (StartResult.fuelOut, 0)
  | _ + 1, [] => (StartResult.fuelOut, 0)
  | fuel + 1, obs :: rest =>
    match obs.entryLock with
    | some true =>
        if obs.checkAfterLock then (StartResult.success, 0)
        else
          let r := managerStart fuel rest
          (r.1, r.2)
    | some false => runOwnAttempt obs
    | none => runOwnAttempt obs

/-! ### Active-connection accounting (claim C4)

`Gateway.forwardProxyRequest` (`gateway.ts` lines 843-1109) increments
`activeConnections` before issuing the upstream request and decrements it
through a `cleanup` closure protected by a local `cleaned` flag, invoked on
every terminal path (abort, 101 upgrade, response end, response error,
request error).  The WebSocket `open` handler (line 1187) increments and
the `close` handler (line 1420) decrements.  We model the counter and the
per-session guards as a small event system.  Event well-formedness encodes
what the runtime guarantees: an HTTP session starts at most once and its
cleanup can only fire after its start (the closure exists only then); a
WebSocket `open` fires at most once per socket and `close` fires exactly
once, after `open`. -/

/-- Connection-accounting events for one service. -/
inductive ConnEvent where
  | httpStart (sid : Nat)
  | httpCleanup (sid : Nat)
  | wsOpen (sid : Nat)
  | wsClose (sid : Nat)
deriving DecidableEq, Repr

/-- Connection-accounting state for one service: the counter plus the
bookkeeping that realises the per-session guards (`cleaned` flags of HTTP
sessions, the set of opened and closed WebSocket sockets). -/
structure ConnSys where
  counter : Int
  httpStarted : List Nat
  httpCleaned : List Nat
  wsOpened : List Nat
  wsClosed : List Nat
deriving DecidableEq, Repr

/-- Initial accounting state: `activeConnections: 0` from
`Gateway.initServices` (`gateway.ts` line 409). -/
def connInit : ConnSys :=
  { counter := 0, httpStarted := [], httpCleaned := [], wsOpened := [], wsClosed := [] }

/-- Effect of one event.  `httpCleanup` mirrors the guarded `cleanup`
closure of `forwardProxyRequest` (`gateway.ts` lines 876-882): the
decrement happens only if the session's `cleaned` flag is not yet set. -/
def connStep (s : ConnSys) : ConnEvent → ConnSys
  | ConnEvent.httpStart sid =>
      { s with counter := s.counter + 1, httpStarted := sid :: s.httpStarted }
  | ConnEvent.httpCleanup sid =>
      if sid ∈ s.httpCleaned then s
      else { s with counter := s.counter - 1, httpCleaned := sid :: s.httpCleaned }
  | ConnEvent.wsOpen sid =>
      { s with counter := s.counter + 1, wsOpened := sid :: s.wsOpened }
  | ConnEvent.wsClose sid =>
      { s with counter := s.counter - 1, wsClosed := sid :: s.wsClosed }

/-- Run a trace of events. -/
def connRun (s : ConnSys) (t : List ConnEvent) : ConnSys :=
  t.foldl connStep s

/-- Trace well-formedness, relative to a state: session identifiers of
`httpStart` and `wsOpen` are fresh, `httpCleanup` refers to a started
session (its closure exists only then), and `wsClose` fires once per
opened socket (uWS invokes `close` exactly once, after `open`). -/
def connWF (s : ConnSys) : List ConnEvent → Bool
  | [] => true
  | e :: t =>
    (match e with
     | ConnEvent.httpStart sid => decide (sid ∉ s.httpStarted)
     | ConnEvent.httpCleanup sid => decide (sid ∈ s.httpStarted)
     | ConnEvent.wsOpen sid => decide (sid ∉ s.wsOpened)
     | ConnEvent.wsClose sid =>
         decide (sid ∈ s.wsOpened) && decide (sid ∉ s.wsClosed)) &&
    connWF (connStep s e) t

/-- Internal invariant of the accounting system: the counter equals opened
sessions minus completed ones, and the completion lists are duplicate-free
sublists of the corresponding session lists. -/
def connInv (s : ConnSys) : Prop :=
  s.httpStarted.Nodup ∧ s.httpCleaned.Nodup ∧ s.wsOpened.Nodup ∧ s.wsClosed.Nodup ∧
  s.httpCleaned ⊆ s.httpStarted ∧ s.wsClosed ⊆ s.wsOpened ∧
  s.counter = ((s.httpStarted.length : Int) - s.httpCleaned.length) +
    ((s.wsOpened.length : Int) - s.wsClosed.length)

/-! ### Header sanitisation and upstream request construction (claims C7, C8)

`Gateway.handleRequest` (`gateway.ts` lines 567-573),
`handlePortBindingRequest` (lines 535-540) and both WebSocket `upgrade`
handlers (lines 1146-1151 and 1499-1503) extract every request header with
`value.replace(/[\r\n]/g, '')` applied to it.  `forwardProxyRequest`
(lines 860-866) then copies all extracted headers, deletes `connection` and
`keep-alive`, and overwrites `host` with the target URL's authority.  The
WebSocket open phase (lines 1257-1268) copies all saved client headers
except `host`, `connection`, `upgrade`, `sec-websocket-key` and
`sec-websocket-version`, then sets `Host` to the target authority.
Headers are modelled as association lists with lower-cased keys, as
delivered by uWS `req.forEach`. -/

/-- CRLF sanitisation applied to each header value at extraction:
`value.replace(/[\r\n]/g, '')`. -/
def sanitizeHeaderValue (v : String) : String :=
  String.mk (v.data.filter (fun c => c ≠ '\r' ∧ c ≠ '\n'))

/-- Header extraction of `handleRequest` / the upgrade handlers: every
value is CRLF-sanitised, keys are kept. -/
def extractHeaders (raw : List (String × String)) : List (String × String) :=
  raw.map (fun kv => (kv.1, sanitizeHeaderValue kv.2))

/-- JS object update `obj[k] = v`: any existing binding of `k` is replaced. -/
def setHeader (hs : List (String × String)) (k v : String) :
    List (String × String) :=
  hs.filter (fun kv => kv.1 ≠ k) ++ [(k, v)]

/-- Upstream header construction of `forwardProxyRequest` (`gateway.ts`
lines 860-866): spread all extracted headers, delete `connection` and
`keep-alive`, set `host` to the target authority.  No other header is
removed. -/
def buildProxyHeaders (hs : List (String × String)) (targetHost : String) :
    List (String × String) :=
  setHeader (hs.filter (fun kv => kv.1 ≠ "connection" ∧ kv.1 ≠ "keep-alive"))
    "host" targetHost

/-- The upstream request assembled by `forwardProxyRequest` (`gateway.ts`
lines 853-906): method and path+query are passed through unchanged
(`new URL(path, targetUrl)` keeps the path and query), headers are
`buildProxyHeaders`. -/
structure UpstreamRequest where
  method : String
  path : String
  headers : List (String × String)
deriving DecidableEq, Repr

/-- Assembly of the upstream request in `forwardProxyRequest`. -/
def buildUpstreamRequest (method path : String) (hs : List (String × String))
    (targetHost : String) : UpstreamRequest :=
  { method := method, path := path, headers := buildProxyHeaders hs targetHost }

/-- Headers the WebSocket open phase refuses to forward (`gateway.ts`
line 1259). -/
def wsSkipHeaders : List String :=
  ["host", "connection", "upgrade", "sec-websocket-key", "sec-websocket-version"]

/-- Backend WebSocket header construction (`gateway.ts` lines 1258-1268):
copy every saved client header whose lower-cased key is not in
`wsSkipHeaders`, then set `Host` to the target authority. -/
def buildBackendHeaders (hs : List (String × String)) (targetHost : String) :
    List (String × String) :=
  hs.filter (fun kv => decide (kv.1.toLower ∉ wsSkipHeaders)) ++ [("Host", targetHost)]

/-- A string free of CR and LF bytes. -/
def noCRLF (s : String) : Prop := '\r' ∉ s.data ∧ '\n' ∉ s.data

instance (s : String) : Decidable (noCRLF s) := by
  unfold noCRLF; infer_instance

/-! ### WebSocket bridge message path (claim C9)

The client-side `message` handler (`gateway.ts` lines 1384-1409) receives
`(message, _isBinary)`; when the backend is ready and open it forwards
`Buffer.from(message)` via `backendWs.send(msgBuffer)` - the `ws` library
sends non-string data as a binary frame, so the client's binary/text flag
is dropped.  Otherwise the buffer is pushed onto `messageQueue`.  The
backend `open` handler (lines 1284-1303) drains the queue front-first with
`shift()`, again via `backendWs.send(msg)`.  The backend-side `message`
handler (lines 1306-1332) forwards with `ws.send(data, isBinary, false)`,
preserving the flag. -/

/-- A WebSocket message: payload bytes plus the binary/text flag of its
frame. -/
structure WsMsg where
  data : List Nat
  isBinary : Bool
deriving DecidableEq, Repr

/-- Bridge state kept per client socket (`wsState` in the `open` handler,
`gateway.ts` lines 1194-1199). -/
structure WsBridgeState where
  backendReady : Bool
  messageQueue : List (List Nat)
  backendOpen : Bool
deriving DecidableEq, Repr

/-- `ws` library `send(buffer)` with no options: non-string data is framed
as binary. -/
def wsLibSendBuffer (payload : List Nat) : WsMsg :=
  { data := payload, isBinary := true }

/-- Client-side `message` handler (`gateway.ts` lines 1384-1409): forward
the buffered payload when the backend is ready and open, else enqueue it.
The client flag argument is the source's `_isBinary`, which the handler
never reads. -/
def clientMessage (st : WsBridgeState) (payload : List Nat) (isBinary : Bool) :
    WsBridgeState × Option WsMsg :=
  if st.backendReady ∧ st.backendOpen then
    (st, some (wsLibSendBuffer payload))
  else
    ({ st with messageQueue := st.messageQueue ++ [payload] }, none)

/-- Backend `open` handler queue drain (`gateway.ts` lines 1284-1303):
mark ready and send the queued buffers in FIFO order.  (The loop shifts
from the front while the backend stays open; we model the run in which the
backend remains open, which is the only one that delivers messages.) -/
def backendOpenDrain (st : WsBridgeState) : WsBridgeState × List WsMsg :=
  ({ st with backendReady := true, messageQueue := [] },
   st.messageQueue.map wsLibSendBuffer)

/-- Backend-side `message` handler (`gateway.ts` line 1308):
`ws.send(data, isBinary, false)` delivers the payload to the client with
the upstream frame's own flag. -/
def backendMessage (payload : List Nat) (isBinary : Bool) : WsMsg :=
  { data := payload, isBinary := isBinary }

/-- Feeding a sequence of client messages through `clientMessage`,
collecting the frames forwarded upstream. -/
def feedClientMessages (st : WsBridgeState) :
    List (List Nat × Bool) → WsBridgeState × List WsMsg
  | [] => (st, [])
  | m :: ms =>
    let r := clientMessage st m.1 m.2
    let rest := feedClientMessages r.1 ms
    (rest.1, (match r.2 with | some f => [f] | none => []) ++ rest.2)

/-! ### Admin API service lookup (claim C10)

`AdminApiHandler.getServicesList` (`src/unnamed/part_003` lines 122-154)
collects services from `hostnameRoutes` and then from `portRoutes` into a
`Map` keyed by service name and returns its values.
`getServiceDetail` (lines 159-193), `stopService` (lines 198-250) and
`startService` (lines 255-324) each resolve the name with
`Array.from(this.hostnameRoutes.values()).find(m => m.service.name ===
serviceName)` and answer 404 when the find fails - `portRoutes` is never
consulted by them. -/

/-- Routing tables as the admin handler sees them: hostname routes and
port routes, each a sequence of mappings carrying the owning service. -/
structure AdminTables where
  hostnameRoutes : List (String × ServiceConfig)
  portRoutes : List (Nat × ServiceConfig)
deriving Repr

/-- JS `Map.set` on an association list: replace in place, else append. -/
def jsMapSet (m : List (String × ServiceConfig)) (k : String)
    (v : ServiceConfig) : List (String × ServiceConfig) :=
  if m.any (fun kv => kv.1 = k) then
    m.map (fun kv => if kv.1 = k then (k, v) else kv)
  else m ++ [(k, v)]

/-- The deduplicated service collection of `getServicesList`
(`part_003` lines 122-136): hostname-route services then port-route
services, keyed by name. -/
def getServicesList (t : AdminTables) : List ServiceConfig :=
  ((t.hostnameRoutes.map Prod.snd ++ t.portRoutes.map Prod.snd).foldl
    (fun m s => jsMapSet m s.name s) []).map Prod.snd

/-- The name resolution shared by the three per-name admin endpoints
(`part_003` lines 160, 199 and 256): search `hostnameRoutes` only. -/
def findServiceByName (t : AdminTables) (name : String) : Option ServiceConfig :=
  (t.hostnameRoutes.map Prod.snd).find? (fun s => s.name = name)

/-- Skeleton of an admin endpoint response, as far as the claim needs. -/
inductive AdminResponse where
  | notFound404
  | badRequest400
  | acted (s : ServiceConfig)
deriving DecidableEq, Repr

/-- `AdminApiHandler.getServiceDetail` (`part_003` lines 159-193): 404 when
the hostname-route lookup fails, otherwise the detail record is built. -/
def getServiceDetail (t : AdminTables) (name : String) : AdminResponse :=
  match findServiceByName t name with
  | none => AdminResponse.notFound404
  | some s => AdminResponse.acted s

/-- `AdminApiHandler.stopService` (`part_003` lines 198-250): 404 when the
hostname-route lookup fails; 400 when the service is not online; otherwise
the stop sequence runs.  `statusOf` supplies each service's current
status. -/
def stopService (t : AdminTables) (statusOf : String → Status)
    (name : String) : AdminResponse :=
  match findServiceByName t name with
  | none => AdminResponse.notFound404
  | some s =>
      if statusOf s.name ≠ Status.online then AdminResponse.badRequest400
      else AdminResponse.acted s

/-- `AdminApiHandler.startService` (`part_003` lines 255-324): 404 when the
hostname-route lookup fails; 400 when the service is already online or
starting; otherwise the start sequence runs. -/
def startService (t : AdminTables) (statusOf : String → Status)
    (name : String) : AdminResponse :=
  match findServiceByName t name with
  | none => AdminResponse.notFound404
  | some s =>
      if statusOf s.name = Status.online ∨ statusOf s.name = Status.starting then
        AdminResponse.badRequest400
      else AdminResponse.acted s

/-! ### Demo constants used by witnesses -/

/-- A plain on-demand service. -/
def svcA : ServiceConfig :=
  { name := "a", idleTimeout := 10, startTimeout := 5000, proxyOnly := false }

/-- A proxy-only service. -/
def svcP : ServiceConfig :=
  { name := "p", idleTimeout := 10, startTimeout := 5000, proxyOnly := true }

/-- An online, idle service state with a recorded start time. -/
def stIdleOnline : ServiceState :=
  { status := Status.online, lastAccessTime := 0, activeConnections := 0,
    startTime := some 50, startCount := 1, totalUptime := 0 }

/-! ### Claim C5 -/

/-- C5: on an idle-reaper tick, a non-proxyOnly service has its stop
invoked exactly when it is online with zero active connections and idle
beyond its `idleTimeout`; on reap it transitions to `stopping`,
`now - startTime` is accumulated into `totalUptime`, `startTime` is
cleared, and completion of the stop - successful or not - puts the service
`offline`. -/
theorem checkIdleService_spec (svc : ServiceConfig) (st : ServiceState) (now : Nat)
    (hp : svc.proxyOnly = false) :
    ((checkIdleService svc st now).2 = true ↔
      (st.status = Status.online ∧ st.activeConnections = 0 ∧
        now - st.lastAccessTime > svc.idleTimeout)) ∧
    ((checkIdleService svc st now).2 = true →
      ((checkIdleService svc st now).1.status = Status.stopping ∧
       (∀ t0, st.startTime = some t0 →
         (checkIdleService svc st now).1.totalUptime = st.totalUptime + (now - t0) ∧
         (checkIdleService svc st now).1.startTime = none) ∧
       (∀ ok, (idleStopComplete (checkIdleService svc st now).1 ok).status =
          Status.offline))) := by
  by_cases hc : st.status = Status.online ∧ st.activeConnections = 0 ∧
      now - st.lastAccessTime > svc.idleTimeout
  · constructor
    · simp [checkIdleService, hp, hc]
    · intro _
      refine ⟨?_, ?_, ?_⟩
      · cases h : st.startTime <;> simp [checkIdleService, hp, hc, h]
      · intro t0 ht0
        simp [checkIdleService, hp, hc, ht0]
      · intro ok
        cases h : st.startTime <;>
          simp [checkIdleService, idleStopComplete, hp, hc, h]
  · simp [checkIdleService, hp, hc]

/-- Witness for `checkIdleService_spec` at a concrete idle online service. -/
theorem checkIdleService_spec_witness :
    svcA.proxyOnly = false ∧
    (checkIdleService svcA stIdleOnline 100).2 = true ∧
    (checkIdleService svcA stIdleOnline 100).1.status = Status.stopping ∧
    (checkIdleService svcA stIdleOnline 100).1.totalUptime = 50 ∧
    (idleStopComplete (checkIdleService svcA stIdleOnline 100).1 false).status =
      Status.offline :=
  ⟨rfl,
   (checkIdleService_spec svcA stIdleOnline 100 rfl).1.mpr (by decide),
   ((checkIdleService_spec svcA stIdleOnline 100 rfl).2
     ((checkIdleService_spec svcA stIdleOnline 100 rfl).1.mpr (by decide))).1,
   by decide,
   (((checkIdleService_spec svcA stIdleOnline 100 rfl).2
     ((checkIdleService_spec svcA stIdleOnline 100 rfl).1.mpr (by decide))).2.2 false)⟩

/-! ### Claim C2 -/

/-- C2 (code bug): `startServiceAndProxy` answers 503 on a failing start
command but leaves the status at `starting` - the claimed (and plainly
intended) reset to `offline` happens only in the readiness-timeout branch.
A service stuck in `starting` is wedged for good: `handleRequest`
dispatches `starting` to the direct proxy, so no later request ever
initiates a fresh start.  The success and timeout branches conform to the
claim, as the remaining conjuncts show. -/
theorem startServiceAndProxy_start_failure :
    (startServiceAndProxy (initServiceState svcA 0) false true 100).2 =
      StartProxyResult.error503 ∧
    (startServiceAndProxy (initServiceState svcA 0) false true 100).1.status =
      Status.starting ∧
    (startServiceAndProxy (initServiceState svcA 0) false true 100).1.status ≠
      Status.offline ∧
    handleRequest Status.starting = HandlerAction.directProxy ∧
    (startServiceAndProxy (initServiceState svcA 0) true false 100).1.status =
      Status.offline ∧
    (startServiceAndProxy (initServiceState svcA 0) true false 100).2 =
      StartProxyResult.error503 ∧
    (startServiceAndProxy (initServiceState svcA 0) true true 100).1.status =
      Status.online ∧
    (startServiceAndProxy (initServiceState svcA 0) true true 100).1.startTime =
      some 100 ∧
    (startServiceAndProxy (initServiceState svcA 0) true true 100).1.startCount = 1 ∧
    (startServiceAndProxy (initServiceState svcA 0) true true 100).2 =
      StartProxyResult.forwarded := by decide

/-! ### Claim C3 -/

/-- C3 counterexample: a request that arrives while the status is
`starting` is dispatched to `handleDirectProxy`, the action that issues the
upstream request at once; it is neither the wait-then-proceed action nor
the start action, so the handler forwards without waiting for the in-flight
start to complete. -/
theorem handleRequest_starting_cex :
    handleRequest Status.starting = HandlerAction.directProxy ∧
    HandlerAction.directProxy ≠ HandlerAction.waitStopping ∧
    HandlerAction.directProxy ≠ HandlerAction.startAndProxy := by decide

/-- C3 amended: the dispatch table of `handleRequest` - only `offline`
starts a service and only `stopping` waits; a request arriving during
`starting` initiates no second start but is forwarded directly to the
upstream immediately, without waiting for the in-flight start. -/
theorem handleRequest_dispatch :
    handleRequest Status.offline = HandlerAction.startAndProxy ∧
    handleRequest Status.stopping = HandlerAction.waitStopping ∧
    handleRequest Status.starting = HandlerAction.directProxy ∧
    handleRequest Status.online = HandlerAction.directProxy := by decide

/-! ### Claim C6 -/

/-- C6 (code bug): a proxyOnly service is `online` from initialisation and
the idle reaper never touches it, but `Gateway.cleanup` does not consult
`proxyOnly`: at shutdown it invokes the stop command on every online
service, proxyOnly ones included, and the stop handler writes `offline` -
contradicting both the claim and the `proxyOnly` field's own documentation
(reverse proxy only, no start/stop). -/
theorem cleanup_stops_proxyOnly :
    (initServiceState svcP 0).status = Status.online ∧
    checkIdleService svcP (initServiceState svcP 0) 1000000 =
      (initServiceState svcP 0, false) ∧
    (cleanupService (initServiceState svcP 0)).2 = true ∧
    (cleanupService (initServiceState svcP 0)).1.status = Status.offline ∧
    Status.offline ≠ Status.online := by decide

/-! ### Claim C1 -/

/-- Observation of a caller that enters with no lock installed: the check
command finds the service not running, the start command succeeds. -/
def obsFresh : CallerObs :=
  { entryLock := none, checkAfterLock := false, ownCheck := false, ownStart := true }

/-- Observation of a caller that finds an in-flight start: the awaited
attempt succeeds, but the follow-up check command reports the service not
running (e.g. the backgrounded process exited after the start command
returned 0). -/
def obsAwaitThenRetry : CallerObs :=
  { entryLock := some true, checkAfterLock := false, ownCheck := false,
    ownStart := false }

/-- C1 counterexample.  Interleaving realised against
`service-manager.ts` lines 116-171: caller 1 enters with no lock,
installs its attempt and executes the start command once (exit 0).
Caller 2 entered while that attempt was in flight (`entryLock = some
true`) and awaited it; the awaited attempt succeeded, but caller 2's
follow-up `isRunning` check reported the service not running, so caller 2
deleted the lock and recursively re-entered `start`, this time finding no
lock and executing the start command itself.  The two concurrent callers
thus executed `commands.start` twice in total, and the caller that found
an in-flight start did not simply await-and-return: it ran the start
command itself.  Both universally quantified parts of the claim fail at
this concrete input. -/
theorem managerStart_single_flight_cex :
    obsAwaitThenRetry.entryLock = some true ∧
    managerStart 2 [obsFresh] = (StartResult.success, 1) ∧
    managerStart 2 [obsAwaitThenRetry, obsFresh] = (StartResult.success, 1) ∧
    (managerStart 2 [obsFresh]).2 +
      (managerStart 2 [obsAwaitThenRetry, obsFresh]).2 = 2 := by decide

/-- C1 amended: a caller that finds an in-flight start awaits it, and when
the awaited attempt succeeds and the follow-up check command reports the
service running, it returns success without executing the start command
itself; likewise an attempt whose initial check finds the service already
running skips the start command.  (When the awaited attempt fails or the
check reports the service not running, the caller retries and may execute
the start command, as the counterexample shows.) -/
theorem managerStart_awaiter_no_exec (fuel : Nat) (obs obs2 : CallerObs)
    (rest : List CallerObs) (h1 : obs.entryLock = some true)
    (h2 : obs.checkAfterLock = true) (h3 : obs2.ownCheck = true) :
    managerStart (fuel + 1) (obs :: rest) = (StartResult.success, 0) ∧
    runOwnAttempt obs2 = (StartResult.success, 0) := by
  constructor
  · unfold managerStart
    rw [h1]
    simp [h2]
  · unfold runOwnAttempt
    simp [h3]

/-- Witness for `managerStart_awaiter_no_exec` at concrete observations. -/
theorem managerStart_awaiter_no_exec_witness :
    ({ entryLock := some true, checkAfterLock := true, ownCheck := false,
       ownStart := false } : CallerObs).entryLock = some true ∧
    ({ entryLock := some true, checkAfterLock := true, ownCheck := false,
       ownStart := false } : CallerObs).checkAfterLock = true ∧
    ({ entryLock := none, checkAfterLock := false, ownCheck := true,
       ownStart := false } : CallerObs).ownCheck = true ∧
    (managerStart 1
      [{ entryLock := some true, checkAfterLock := true, ownCheck := false,
         ownStart := false }] = (StartResult.success, 0) ∧
     runOwnAttempt
       { entryLock := none, checkAfterLock := false, ownCheck := true,
         ownStart := false } = (StartResult.success, 0)) :=
  ⟨rfl, rfl, rfl,
   managerStart_awaiter_no_exec 0
     { entryLock := some true, checkAfterLock := true, ownCheck := false,
       ownStart := false }
     { entryLock := none, checkAfterLock := false, ownCheck := true,
       ownStart := false }
     [] rfl rfl rfl⟩

/-! ### Claim C7 -/

/-- Sanitised header values contain no CR and no LF. -/
lemma sanitizeHeaderValue_noCRLF (v : String) : noCRLF (sanitizeHeaderValue v) := by
  unfold noCRLF sanitizeHeaderValue
  constructor
  · intro hmem
    have h := (List.mem_filter.mp hmem).2
    simp at h
  · intro hmem
    have h := (List.mem_filter.mp hmem).2
    simp at h

/-- Every extracted header has a CRLF-free value. -/
lemma extractHeaders_noCRLF (raw : List (String × String)) :
    ∀ kv ∈ extractHeaders raw, noCRLF kv.2 := by
  intro kv hkv
  unfold extractHeaders at hkv
  rcases List.mem_map.mp hkv with ⟨x, _, hx⟩
  rw [← hx]
  exact sanitizeHeaderValue_noCRLF x.2

/-- C7: every header value forwarded toward the upstream - over the HTTP
proxy path (`buildProxyHeaders`) as well as the WebSocket open phase
(`buildBackendHeaders`) - is free of CR and LF bytes, because extraction
sanitises each client value and the only other value, the `Host` header,
is the target URL's authority. -/
theorem forwarded_headers_noCRLF (raw : List (String × String))
    (targetHost : String) (h : noCRLF targetHost) :
    (∀ kv ∈ buildProxyHeaders (extractHeaders raw) targetHost, noCRLF kv.2) ∧
    (∀ kv ∈ buildBackendHeaders (extractHeaders raw) targetHost, noCRLF kv.2) := by
  constructor
  · intro kv hkv
    unfold buildProxyHeaders setHeader at hkv
    rcases List.mem_append.mp hkv with h1 | h1
    · have h2 := (List.mem_filter.mp h1).1
      have h3 := (List.mem_filter.mp h2).1
      exact extractHeaders_noCRLF raw kv h3
    · rcases List.mem_singleton.mp h1 with rfl
      exact h
  · intro kv hkv
    unfold buildBackendHeaders at hkv
    rcases List.mem_append.mp hkv with h1 | h1
    · have h2 := (List.mem_filter.mp h1).1
      exact extractHeaders_noCRLF raw kv h2
    · rcases List.mem_singleton.mp h1 with rfl
      exact h

/-- Witness for `forwarded_headers_noCRLF`: a header whose raw value
carries an injected CRLF sequence is forwarded stripped. -/
theorem forwarded_headers_noCRLF_witness :
    noCRLF "127.0.0.1:9001" ∧
    (∀ kv ∈ buildProxyHeaders
        (extractHeaders [("x-test", "foo\r\nevil: yes")]) "127.0.0.1:9001",
      noCRLF kv.2) :=
  ⟨by decide,
   (forwarded_headers_noCRLF [("x-test", "foo\r\nevil: yes")] "127.0.0.1:9001"
     (by decide)).1⟩

/-! ### Claim C8 -/

/-- C8 counterexample: `forwardProxyRequest` deletes only `connection` and
`keep-alive` before forwarding; a client `Transfer-Encoding` or `Upgrade`
header survives into the upstream request headers, contrary to the claimed
hop-by-hop stripping. -/
theorem buildProxyHeaders_hop_by_hop_cex :
    ("transfer-encoding", "chunked") ∈
      buildProxyHeaders [("transfer-encoding", "chunked"), ("upgrade", "h2c")]
        "127.0.0.1:9001" ∧
    ("upgrade", "h2c") ∈
      buildProxyHeaders [("transfer-encoding", "chunked"), ("upgrade", "h2c")]
        "127.0.0.1:9001" := by decide

/-- C8 amended: the upstream request preserves the method and the
path+query, carries every client header except `Connection`, `Keep-Alive`
and the replaced `Host` (`Transfer-Encoding` and `Upgrade` are forwarded
unchanged), never carries `Connection` or `Keep-Alive`, and has its `Host`
header set to the target URL's authority. -/
theorem buildUpstreamRequest_spec (method path : String)
    (hs : List (String × String)) (targetHost : String) (kv : String × String)
    (hmem : kv ∈ hs) (hc : kv.1 ≠ "connection") (hk : kv.1 ≠ "keep-alive")
    (hh : kv.1 ≠ "host") :
    (buildUpstreamRequest method path hs targetHost).method = method ∧
    (buildUpstreamRequest method path hs targetHost).path = path ∧
    ("host", targetHost) ∈ (buildUpstreamRequest method path hs targetHost).headers ∧
    kv ∈ (buildUpstreamRequest method path hs targetHost).headers ∧
    (∀ kv2 ∈ (buildUpstreamRequest method path hs targetHost).headers,
      kv2.1 ≠ "connection" ∧ kv2.1 ≠ "keep-alive") := by
  refine ⟨rfl, rfl, ?_, ?_, ?_⟩
  · unfold buildUpstreamRequest buildProxyHeaders setHeader
    exact List.mem_append.mpr (Or.inr (List.mem_singleton.mpr rfl))
  · unfold buildUpstreamRequest buildProxyHeaders setHeader
    refine List.mem_append.mpr (Or.inl ?_)
    refine List.mem_filter.mpr ⟨List.mem_filter.mpr ⟨hmem, ?_⟩, ?_⟩
    · simp [hc, hk]
    · simp [hh]
  · intro kv2 hkv2
    unfold buildUpstreamRequest buildProxyHeaders setHeader at hkv2
    rcases List.mem_append.mp hkv2 with h1 | h1
    · have h2 := (List.mem_filter.mp ((List.mem_filter.mp h1).1)).2
      simp at h2
      exact h2
    · rcases List.mem_singleton.mp h1 with rfl
      constructor
      · show ("host" : String) ≠ "connection"
        decide
      · show ("host" : String) ≠ "keep-alive"
        decide

/-- Witness for `buildUpstreamRequest_spec`: a `Transfer-Encoding` header
satisfies the exception conditions and is carried into the upstream
request, whose `Host` is the target authority. -/
theorem buildUpstreamRequest_spec_witness :
    ("transfer-encoding", "chunked") ∈
      [("transfer-encoding", "chunked"), ("connection", "close")] ∧
    ("transfer-encoding" : String) ≠ "connection" ∧
    ("transfer-encoding" : String) ≠ "keep-alive" ∧
    ("transfer-encoding" : String) ≠ "host" ∧
    ((buildUpstreamRequest "post" "/x?q=1"
        [("transfer-encoding", "chunked"), ("connection", "close")]
        "127.0.0.1:9001").method = "post" ∧
     (buildUpstreamRequest "post" "/x?q=1"
        [("transfer-encoding", "chunked"), ("connection", "close")]
        "127.0.0.1:9001").path = "/x?q=1" ∧
     ("host", "127.0.0.1:9001") ∈
       (buildUpstreamRequest "post" "/x?q=1"
         [("transfer-encoding", "chunked"), ("connection", "close")]
         "127.0.0.1:9001").headers ∧
     ("transfer-encoding", "chunked") ∈
       (buildUpstreamRequest "post" "/x?q=1"
         [("transfer-encoding", "chunked"), ("connection", "close")]
         "127.0.0.1:9001").headers ∧
     (∀ kv2 ∈ (buildUpstreamRequest "post" "/x?q=1"
         [("transfer-encoding", "chunked"), ("connection", "close")]
         "127.0.0.1:9001").headers,
       kv2.1 ≠ "connection" ∧ kv2.1 ≠ "keep-alive")) :=
  ⟨by decide, by decide, by decide, by decide,
   buildUpstreamRequest_spec "post" "/x?q=1"
     [("transfer-encoding", "chunked"), ("connection", "close")]
     "127.0.0.1:9001" ("transfer-encoding", "chunked")
     (by decide) (by decide) (by decide) (by decide)⟩

/-! ### Claim C9 -/

/-- A bridge state whose backend connection is established. -/
def wsReadyState : WsBridgeState :=
  { backendReady := true, messageQueue := [], backendOpen := true }

/-- C9 counterexample: a client text frame (binary/text flag `false`) is
forwarded to the upstream as a binary frame - the client handler passes
`Buffer.from(message)` to `backendWs.send` without the flag, and the `ws`
library frames non-string data as binary.  The flag is not preserved in
the client-to-upstream direction. -/
theorem clientMessage_text_flag_cex :
    (clientMessage wsReadyState [104, 105] false).2 =
      some { data := [104, 105], isBinary := true } ∧
    ({ data := [104, 105], isBinary := true } : WsMsg) ≠
      { data := [104, 105], isBinary := false } := by decide

/-- Feeding messages while the backend is not ready only enqueues their
payloads, in arrival order, and forwards nothing. -/
lemma feedClientMessages_not_ready (msgs : List (List Nat × Bool))
    (st : WsBridgeState) (h : st.backendReady = false) :
    feedClientMessages st msgs =
      ({ st with messageQueue := st.messageQueue ++ msgs.map Prod.fst }, []) := by
  induction msgs generalizing st with
  | nil => simp [feedClientMessages]
  | cons m ms ih =>
      have hcm : clientMessage st m.1 m.2 =
          ({ st with messageQueue := st.messageQueue ++ [m.1] }, none) := by
        unfold clientMessage
        rw [if_neg]
        intro hcontra
        rw [h] at hcontra
        exact Bool.false_ne_true hcontra.1
      have hready : ({ st with messageQueue := st.messageQueue ++ [m.1] } :
          WsBridgeState).backendReady = false := h
      simp [feedClientMessages, hcm, ih _ hready, List.append_assoc]

/-- C9 amended: the upstream-to-client direction preserves payload and
binary/text flag; the client-to-upstream direction preserves the payload
but always delivers a binary frame, dropping the client's flag; and
messages received before the upstream connects are queued and delivered on
the backend `open` event in FIFO order (as binary frames). -/
theorem wsBridge_message_spec (st st2 : WsBridgeState) (payload : List Nat)
    (flag : Bool) (msgs : List (List Nat × Bool))
    (hnr : st.backendReady = false) (hr : st2.backendReady = true)
    (ho : st2.backendOpen = true) :
    backendMessage payload flag = { data := payload, isBinary := flag } ∧
    (clientMessage st2 payload flag).2 =
      some { data := payload, isBinary := true } ∧
    (backendOpenDrain (feedClientMessages st msgs).1).2 =
      (st.messageQueue ++ msgs.map Prod.fst).map wsLibSendBuffer := by
  refine ⟨rfl, ?_, ?_⟩
  · unfold clientMessage
    rw [if_pos ⟨hr, ho⟩]
    rfl
  · rw [feedClientMessages_not_ready msgs st hnr]
    rfl

/-- Witness for `wsBridge_message_spec`: one queued text message and one
queued binary message are delivered in order on backend open, a later text
message is forwarded as binary, and an upstream text frame keeps its flag. -/
theorem wsBridge_message_spec_witness :
    ({ backendReady := false, messageQueue := [], backendOpen := false } :
      WsBridgeState).backendReady = false ∧
    wsReadyState.backendReady = true ∧
    wsReadyState.backendOpen = true ∧
    (backendMessage [7] false = { data := [7], isBinary := false } ∧
     (clientMessage wsReadyState [7] false).2 =
       some { data := [7], isBinary := true } ∧
     (backendOpenDrain (feedClientMessages
         { backendReady := false, messageQueue := [], backendOpen := false }
         [([1], false), ([2], true)]).1).2 =
       (([] : List (List Nat)) ++
         [([1], false), ([2], true)].map Prod.fst).map wsLibSendBuffer) :=
  ⟨rfl, rfl, rfl,
   wsBridge_message_spec
     { backendReady := false, messageQueue := [], backendOpen := false }
     wsReadyState [7] false [([1], false), ([2], true)] rfl rfl rfl⟩

/-! ### Claim C10 -/

/-- `jsMapSet` keeps every existing key. -/
lemma jsMapSet_keys_preserve (m : List (String × ServiceConfig)) (k : String)
    (v : ServiceConfig) (k2 : String) (h : k2 ∈ m.map Prod.fst) :
    k2 ∈ (jsMapSet m k v).map Prod.fst := by
  unfold jsMapSet
  by_cases hp : m.any (fun kv => kv.1 = k)
  · rw [if_pos hp]
    rcases List.mem_map.mp h with ⟨kv, hkv, hfst⟩
    rw [List.map_map]
    refine List.mem_map.mpr ⟨kv, hkv, ?_⟩
    by_cases he : kv.1 = k
    · show (if kv.1 = k then (k, v) else kv).1 = k2
      rw [if_pos he]
      show k = k2
      rw [← he]
      exact hfst
    · show (if kv.1 = k then (k, v) else kv).1 = k2
      rw [if_neg he]
      exact hfst
  · rw [if_neg hp]
    rw [List.map_append]
    exact List.mem_append.mpr (Or.inl h)

/-- `jsMapSet` makes its key present. -/
lemma jsMapSet_key_mem (m : List (String × ServiceConfig)) (k : String)
    (v : ServiceConfig) : k ∈ (jsMapSet m k v).map Prod.fst := by
  unfold jsMapSet
  by_cases hp : m.any (fun kv => kv.1 = k)
  · rw [if_pos hp]
    rcases List.any_eq_true.mp hp with ⟨kv, hkv, he⟩
    have he2 : kv.1 = k := by simpa using he
    rw [List.map_map]
    exact List.mem_map.mpr ⟨kv, hkv, by simp [he2]⟩
  · rw [if_neg hp]
    rw [List.map_append]
    exact List.mem_append.mpr (Or.inr (by simp))

/-- The services fold keeps every existing key. -/
lemma servicesFold_keys_preserve (l : List ServiceConfig)
    (m : List (String × ServiceConfig)) (k2 : String) (h : k2 ∈ m.map Prod.fst) :
    k2 ∈ (l.foldl (fun acc s => jsMapSet acc s.name s) m).map Prod.fst := by
  induction l generalizing m with
  | nil => exact h
  | cons s l ih =>
      exact ih (jsMapSet m s.name s) (jsMapSet_keys_preserve m s.name s k2 h)

/-- Every folded-in name becomes a key of the services fold. -/
lemma servicesFold_key_of_mem (l : List ServiceConfig) :
    ∀ (m : List (String × ServiceConfig)) (k2 : String),
      k2 ∈ l.map ServiceConfig.name →
      k2 ∈ (l.foldl (fun acc s2 => jsMapSet acc s2.name s2) m).map Prod.fst := by
  induction l with
  | nil =>
      intro m k2 h
      cases h
  | cons s2 l ih =>
      intro m k2 h
      rcases List.mem_cons.mp h with heq | h2
      · rw [heq]
        exact servicesFold_keys_preserve l (jsMapSet m s2.name s2) s2.name
          (jsMapSet_key_mem m s2.name s2)
      · exact ih (jsMapSet m s2.name s2) k2 h2

/-- `jsMapSet` with a key equal to the value's name preserves the
key-names-value invariant. -/
lemma jsMapSet_named (m : List (String × ServiceConfig)) (v : ServiceConfig)
    (hm : ∀ kv ∈ m, kv.1 = kv.2.name) :
    ∀ kv ∈ jsMapSet m v.name v, kv.1 = kv.2.name := by
  intro kv hkv
  unfold jsMapSet at hkv
  by_cases hp : m.any (fun kv2 => kv2.1 = v.name)
  · rw [if_pos hp] at hkv
    rcases List.mem_map.mp hkv with ⟨kv2, hkv2, hmap⟩
    by_cases he : kv2.1 = v.name
    · rw [if_pos he] at hmap
      rw [← hmap]
    · rw [if_neg he] at hmap
      rw [← hmap]
      exact hm kv2 hkv2
  · rw [if_neg hp] at hkv
    rcases List.mem_append.mp hkv with h1 | h1
    · exact hm kv h1
    · rcases List.mem_singleton.mp h1 with rfl
      rfl

/-- In the services fold every entry's key is its service's name. -/
lemma servicesFold_named (l : List ServiceConfig)
    (m : List (String × ServiceConfig)) (hm : ∀ kv ∈ m, kv.1 = kv.2.name) :
    ∀ kv ∈ l.foldl (fun acc s => jsMapSet acc s.name s) m, kv.1 = kv.2.name := by
  induction l generalizing m with
  | nil => exact hm
  | cons s l ih => exact ih (jsMapSet m s.name s) (jsMapSet_named m s hm)

/-- C10: the three per-name admin endpoints resolve the service name by
searching `hostnameRoutes` only, so a service all of whose routes are port
routes gets 404 from `GET /_dynapm/api/services/:name`,
`POST .../:name/stop` and `POST .../:name/start`, although the very same
service appears in the `GET /_dynapm/api/services` list, which unions
hostname and port routes. -/
theorem admin_portOnly_service_hidden (t : AdminTables) (name : String)
    (statusOf : String → Status)
    (hhost : ∀ m ∈ t.hostnameRoutes, m.2.name ≠ name)
    (hport : ∃ m ∈ t.portRoutes, m.2.name = name) :
    getServiceDetail t name = AdminResponse.notFound404 ∧
    stopService t statusOf name = AdminResponse.notFound404 ∧
    startService t statusOf name = AdminResponse.notFound404 ∧
    name ∈ (getServicesList t).map ServiceConfig.name := by
  have hfind : findServiceByName t name = none := by
    unfold findServiceByName
    rw [List.find?_eq_none]
    intro s hs
    rcases List.mem_map.mp hs with ⟨m, hm, hsnd⟩
    simpa [← hsnd] using hhost m hm
  refine ⟨?_, ?_, ?_, ?_⟩
  · unfold getServiceDetail
    rw [hfind]
  · unfold stopService
    rw [hfind]
  · unfold startService
    rw [hfind]
  · rcases hport with ⟨m, hm, hname⟩
    have hmem : m.2 ∈ t.hostnameRoutes.map Prod.snd ++ t.portRoutes.map Prod.snd :=
      List.mem_append.mpr (Or.inr (List.mem_map.mpr ⟨m, hm, rfl⟩))
    have hkey := servicesFold_key_of_mem
      (t.hostnameRoutes.map Prod.snd ++ t.portRoutes.map Prod.snd) [] m.2.name
      (List.mem_map.mpr ⟨m.2, hmem, rfl⟩)
    rcases List.mem_map.mp hkey with ⟨kv, hkv, hfst⟩
    have hnamed := servicesFold_named
      (t.hostnameRoutes.map Prod.snd ++ t.portRoutes.map Prod.snd) []
      (by intro kv2 h2; cases h2) kv hkv
    refine List.mem_map.mpr ⟨kv.2, ?_, ?_⟩
    · unfold getServicesList
      exact List.mem_map.mpr ⟨kv, hkv, rfl⟩
    · rw [← hnamed, hfst, hname]

/-- Witness for `admin_portOnly_service_hidden`: one service reachable
only through a port route. -/
theorem admin_portOnly_service_hidden_witness :
    (∀ m ∈ (⟨[], [(9001, svcA)]⟩ : AdminTables).hostnameRoutes, m.2.name ≠ "a") ∧
    (∃ m ∈ (⟨[], [(9001, svcA)]⟩ : AdminTables).portRoutes, m.2.name = "a") ∧
    (getServiceDetail ⟨[], [(9001, svcA)]⟩ "a" = AdminResponse.notFound404 ∧
     stopService ⟨[], [(9001, svcA)]⟩ (fun _ => Status.online) "a" =
       AdminResponse.notFound404 ∧
     startService ⟨[], [(9001, svcA)]⟩ (fun _ => Status.online) "a" =
       AdminResponse.notFound404 ∧
     "a" ∈ (getServicesList ⟨[], [(9001, svcA)]⟩).map ServiceConfig.name) :=
  ⟨(by intro m hm; cases hm),
   ⟨(9001, svcA), List.mem_singleton.mpr rfl, rfl⟩,
   admin_portOnly_service_hidden ⟨[], [(9001, svcA)]⟩ "a" (fun _ => Status.online)
     (by intro m hm; cases hm)
     ⟨(9001, svcA), List.mem_singleton.mpr rfl, rfl⟩⟩

/-! ### Claim C4 -/

/-- An `httpStart` with a fresh session id preserves the accounting
invariant. -/
lemma connInv_httpStart (s : ConnSys) (sid : Nat) (hf : sid ∉ s.httpStarted)
    (hinv : connInv s) : connInv (connStep s (ConnEvent.httpStart sid)) := by
  obtain ⟨hnS, hnC, hnO, hnX, hsub1, hsub2, heq⟩ := hinv
  refine ⟨List.nodup_cons.mpr ⟨hf, hnS⟩, hnC, hnO, hnX,
    fun x hx => List.mem_cons_of_mem _ (hsub1 hx), hsub2, ?_⟩
  show s.counter + 1 =
    (((sid :: s.httpStarted).length : Int) - s.httpCleaned.length) +
      ((s.wsOpened.length : Int) - s.wsClosed.length)
  rw [List.length_cons]
  omega

/-- An `httpCleanup` of a started session preserves the invariant: the
`cleaned` guard makes a repeated cleanup a no-op. -/
lemma connInv_httpCleanup (s : ConnSys) (sid : Nat) (hm : sid ∈ s.httpStarted)
    (hinv : connInv s) : connInv (connStep s (ConnEvent.httpCleanup sid)) := by
  obtain ⟨hnS, hnC, hnO, hnX, hsub1, hsub2, heq⟩ := hinv
  show connInv (if sid ∈ s.httpCleaned then s
    else { s with counter := s.counter - 1, httpCleaned := sid :: s.httpCleaned })
  by_cases hc : sid ∈ s.httpCleaned
  · rw [if_pos hc]
    exact ⟨hnS, hnC, hnO, hnX, hsub1, hsub2, heq⟩
  · rw [if_neg hc]
    refine ⟨hnS, List.nodup_cons.mpr ⟨hc, hnC⟩, hnO, hnX,
      List.cons_subset.mpr ⟨hm, hsub1⟩, hsub2, ?_⟩
    show s.counter - 1 =
      ((s.httpStarted.length : Int) - (sid :: s.httpCleaned).length) +
        ((s.wsOpened.length : Int) - s.wsClosed.length)
    rw [List.length_cons]
    omega

/-- A `wsOpen` with a fresh socket id preserves the invariant. -/
lemma connInv_wsOpen (s : ConnSys) (sid : Nat) (hf : sid ∉ s.wsOpened)
    (hinv : connInv s) : connInv (connStep s (ConnEvent.wsOpen sid)) := by
  obtain ⟨hnS, hnC, hnO, hnX, hsub1, hsub2, heq⟩ := hinv
  refine ⟨hnS, hnC, List.nodup_cons.mpr ⟨hf, hnO⟩, hnX, hsub1,
    fun x hx => List.mem_cons_of_mem _ (hsub2 hx), ?_⟩
  show s.counter + 1 =
    ((s.httpStarted.length : Int) - s.httpCleaned.length) +
      (((sid :: s.wsOpened).length : Int) - s.wsClosed.length)
  rw [List.length_cons]
  omega

/-- A `wsClose` of an opened, not yet closed socket preserves the
invariant. -/
lemma connInv_wsClose (s : ConnSys) (sid : Nat) (hm : sid ∈ s.wsOpened)
    (hc : sid ∉ s.wsClosed) (hinv : connInv s) :
    connInv (connStep s (ConnEvent.wsClose sid)) := by
  obtain ⟨hnS, hnC, hnO, hnX, hsub1, hsub2, heq⟩ := hinv
  refine ⟨hnS, hnC, hnO, List.nodup_cons.mpr ⟨hc, hnX⟩, hsub1,
    List.cons_subset.mpr ⟨hm, hsub2⟩, ?_⟩
  show s.counter - 1 =
    ((s.httpStarted.length : Int) - s.httpCleaned.length) +
      ((s.wsOpened.length : Int) - (sid :: s.wsClosed).length)
  rw [List.length_cons]
  omega

/-- Running any well-formed trace preserves the accounting invariant. -/
lemma connInv_run (t : List ConnEvent) :
    ∀ s : ConnSys, connWF s t = true → connInv s → connInv (connRun s t) := by
  induction t with
  | nil =>
      intro s _ hinv
      exact hinv
  | cons e t ih =>
      intro s hwf hinv
      simp only [connWF] at hwf
      rw [Bool.and_eq_true] at hwf
      rcases hwf with ⟨hg, hrest⟩
      refine ih (connStep s e) hrest ?_
      cases e with
      | httpStart sid => exact connInv_httpStart s sid (of_decide_eq_true hg) hinv
      | httpCleanup sid => exact connInv_httpCleanup s sid (of_decide_eq_true hg) hinv
      | wsOpen sid => exact connInv_wsOpen s sid (of_decide_eq_true hg) hinv
      | wsClose sid =>
          rw [Bool.and_eq_true] at hg
          rcases hg with ⟨hg1, hg2⟩
          exact connInv_wsClose s sid (of_decide_eq_true hg1)
            (of_decide_eq_true hg2) hinv

/-- The initial accounting state satisfies the invariant. -/
lemma connInv_init : connInv connInit := by
  refine ⟨List.nodup_nil, List.nodup_nil, List.nodup_nil, List.nodup_nil,
    List.Subset.refl _, List.Subset.refl _, ?_⟩
  rfl

/-- C4: over every well-formed event trace the connection counter stays
non-negative, always equals open-minus-completed sessions (each forwarded
request and accepted WebSocket contributes one increment and exactly one
guarded decrement), returns to its initial value 0 once every session has
reached a terminal outcome, and a repeated cleanup of an already cleaned
session changes nothing - the double-decrement guard. -/
theorem activeConnections_accounting (t : List ConnEvent)
    (hwf : connWF connInit t = true) :
    0 ≤ (connRun connInit t).counter ∧
    (connRun connInit t).counter =
      (((connRun connInit t).httpStarted.length : Int) -
        (connRun connInit t).httpCleaned.length) +
      (((connRun connInit t).wsOpened.length : Int) -
        (connRun connInit t).wsClosed.length) ∧
    ((connRun connInit t).httpCleaned.length =
        (connRun connInit t).httpStarted.length →
      (connRun connInit t).wsClosed.length = (connRun connInit t).wsOpened.length →
      (connRun connInit t).counter = 0) ∧
    (∀ sid, sid ∈ (connRun connInit t).httpCleaned →
      connStep (connRun connInit t) (ConnEvent.httpCleanup sid) =
        connRun connInit t) := by
  obtain ⟨hnS, hnC, hnO, hnX, hsub1, hsub2, heq⟩ :=
    connInv_run t connInit hwf connInv_init
  have h1 : (connRun connInit t).httpCleaned.length ≤
      (connRun connInit t).httpStarted.length :=
    List.Subperm.length_le (List.Nodup.subperm hnC hsub1)
  have h2 : (connRun connInit t).wsClosed.length ≤
      (connRun connInit t).wsOpened.length :=
    List.Subperm.length_le (List.Nodup.subperm hnX hsub2)
  refine ⟨by omega, heq, by omega, ?_⟩
  intro sid hsid
  show (if sid ∈ (connRun connInit t).httpCleaned then connRun connInit t
    else { connRun connInit t with
            counter := (connRun connInit t).counter - 1,
            httpCleaned := sid :: (connRun connInit t).httpCleaned }) =
    connRun connInit t
  rw [if_pos hsid]

/-- Witness for `activeConnections_accounting` on a concrete trace with a
forwarded request, a WebSocket session and a duplicated cleanup call. -/
theorem activeConnections_accounting_witness :
    connWF connInit
      [ConnEvent.httpStart 0, ConnEvent.wsOpen 1, ConnEvent.httpCleanup 0,
       ConnEvent.httpCleanup 0, ConnEvent.wsClose 1] = true ∧
    0 ≤ (connRun connInit
      [ConnEvent.httpStart 0, ConnEvent.wsOpen 1, ConnEvent.httpCleanup 0,
       ConnEvent.httpCleanup 0, ConnEvent.wsClose 1]).counter ∧
    (connRun connInit
      [ConnEvent.httpStart 0, ConnEvent.wsOpen 1, ConnEvent.httpCleanup 0,
       ConnEvent.httpCleanup 0, ConnEvent.wsClose 1]).counter = 0 :=
  ⟨by decide,
   (activeConnections_accounting
     [ConnEvent.httpStart 0, ConnEvent.wsOpen 1, ConnEvent.httpCleanup 0,
      ConnEvent.httpCleanup 0, ConnEvent.wsClose 1] (by decide)).1,
   (activeConnections_accounting
     [ConnEvent.httpStart 0, ConnEvent.wsOpen 1, ConnEvent.httpCleanup 0,
      ConnEvent.httpCleanup 0, ConnEvent.wsClose 1] (by decide)).2.2.1
     (by decide) (by decide)⟩
